import Mathlib

/-!
Shallow embedding of the performance sampling and test-harness module of
`src/src/utils/performance-ui.js` (classes `PerformanceMonitor` and
`AnimationPerformanceTester`), together with theorems settling the claims
about it.

Modelling conventions:
* JS numbers are modelled as `ℚ` (clock readings, frame times, raw heap
  sizes) or `Int`/`Nat` where the source only ever holds integers.
  `Math.round` is `round : ℚ → ℤ` (both round half towards +∞).
* `performance.now()` readings are passed explicitly as `now : ℚ`
  parameters; `Date.now()` timestamps are modelled on the same
  millisecond clock (rounded to `Int`).
* Timer callbacks (`setInterval` ticks, `requestAnimationFrame`
  callbacks) are delivered as explicit events (`MEvent`).
* `setTimeout`-based waits advance the explicit clock by the requested
  number of milliseconds.
* DOM queries are abstracted to the element counts the code branches on;
  the offscreen fallback selector `[style*="-1000px"]` is modelled as
  matching exactly the synthesized fallback nodes.
-/

namespace PerfUI

/-- One recorded memory sample (`memoryInfo` in `updateMemory`):
megabyte-rounded heap counters plus a timestamp. -/
structure MemoryInfo where
  used : Int
  total : Int
  limit : Int
  timestamp : Int
deriving Repr, DecidableEq

/-- The `this.metrics` record of `PerformanceMonitor`. -/
structure Metrics where
  fps : List Int
  memory : List MemoryInfo
  loadTime : Int
  animationCount : Int
  frameTime : List ℚ
  cpuUsage : Int
  startTime : ℚ
deriving Repr, DecidableEq

/-- The mutable fields of a `PerformanceMonitor` instance.  The two
interval handles are modelled as booleans (armed / not armed). -/
structure PerformanceMonitor where
  metrics : Metrics
  isMonitoring : Bool
  fpsInterval : Bool
  memoryInterval : Bool
  frameCount : Nat
  lastTime : ℚ
deriving Repr, DecidableEq

/-- The fresh `this.metrics` object built by the constructor and by
`reset()`, at clock reading `now`. -/
def freshMetrics (now : ℚ) : Metrics :=
  { fps := []
    memory := []
    loadTime := 0
    animationCount := 0
    frameTime := []
    cpuUsage := 0
    startTime := now }

/-- The `PerformanceMonitor` constructor at clock reading `now`. -/
def mkMonitor (now : ℚ) : PerformanceMonitor :=
  { metrics := freshMetrics now
    isMonitoring := false
    fpsInterval := false
    memoryInterval := false
    frameCount := 0
    lastTime := now }

/-- The bounded-window push pattern used by `updateFPS`, `updateMemory`
and `measureFrameTime`: `arr.push(x); if (arr.length > cap) arr.shift()`. -/
def pushWindow (cap : Nat) (w : List α) (x : α) : List α :=
  let pushed := w ++ [x]
  if cap < pushed.length then pushed.tail else pushed

/-- `updateFPS` (FPS interval tick at clock reading `now`): records
`Math.round(frameCount * 1000 / deltaTime)` into the 60-entry FPS window,
then zeroes the frame counter.  (The on-screen display update is
presentational and not modelled; JS division of a nonzero numerator by a
zero `deltaTime` is never exercised by any claim.) -/
def updateFPS (m : PerformanceMonitor) (now : ℚ) : PerformanceMonitor :=
  let deltaTime := now - m.lastTime
  let fps := round (((m.frameCount : ℚ) * 1000) / deltaTime)
  { m with
    metrics := { m.metrics with fps := pushWindow 60 m.metrics.fps fps }
    frameCount := 0
    lastTime := now }

/-- The raw `performance.memory` heap counters, in bytes, when the
capability is present. -/
structure RawMemory where
  usedJSHeapSize : ℚ
  totalJSHeapSize : ℚ
  jsHeapSizeLimit : ℚ
deriving Repr, DecidableEq

/-- `updateMemory` (memory interval tick): when `performance.memory` is
absent (`none`) the whole body is skipped; otherwise the byte counters are
rounded to megabytes and pushed into the 30-entry memory window.  (The
on-screen display update is presentational and not modelled.) -/
def updateMemory (m : PerformanceMonitor) (mem : Option RawMemory) (ts : Int) :
    PerformanceMonitor :=
  match mem with
  | none => m
  | some r =>
      let memoryInfo : MemoryInfo :=
        { used := round (r.usedJSHeapSize / 1024 / 1024)
          total := round (r.totalJSHeapSize / 1024 / 1024)
          limit := round (r.jsHeapSizeLimit / 1024 / 1024)
          timestamp := ts }
      { m with
        metrics :=
          { m.metrics with memory := pushWindow 30 m.metrics.memory memoryInfo } }

/-- The body of the `requestAnimationFrame` callback armed by
`measureFrameTime`: push the measured frame duration into the 120-entry
frame-time window and count the frame. -/
def recordFrameTime (m : PerformanceMonitor) (frameTime : ℚ) : PerformanceMonitor :=
  { m with
    metrics :=
      { m.metrics with frameTime := pushWindow 120 m.metrics.frameTime frameTime }
    frameCount := m.frameCount + 1 }

/-- `incrementAnimationCount`. -/
def incrementAnimationCount (m : PerformanceMonitor) : PerformanceMonitor :=
  { m with metrics := { m.metrics with animationCount := m.metrics.animationCount + 1 } }

/-- `decrementAnimationCount`: decrement only when strictly positive. -/
def decrementAnimationCount (m : PerformanceMonitor) : PerformanceMonitor :=
  if 0 < m.metrics.animationCount then
    { m with metrics := { m.metrics with animationCount := m.metrics.animationCount - 1 } }
  else m

/-- `startMonitoring`: no-op when already running; otherwise set the flag,
restamp `metrics.startTime`, and arm the two intervals (the initial
`measureFrameTime()` call only arms the frame callback chain, delivered
here as `MEvent.frame` events). -/
def startMonitoring (m : PerformanceMonitor) (now : ℚ) : PerformanceMonitor :=
  if m.isMonitoring then m
  else
    { m with
      isMonitoring := true
      metrics := { m.metrics with startTime := now }
      fpsInterval := true
      memoryInterval := true }

/-- `stopMonitoring`: no-op when not running; otherwise clear the flag and
cancel both intervals. -/
def stopMonitoring (m : PerformanceMonitor) : PerformanceMonitor :=
  if !m.isMonitoring then m
  else { m with isMonitoring := false, fpsInterval := false, memoryInterval := false }

/-- `reset()`: replace `this.metrics` with a fresh record stamped `now`
and zero the frame counter; the monitoring flag and interval handles are
untouched. -/
def reset (m : PerformanceMonitor) (now : ℚ) : PerformanceMonitor :=
  { m with metrics := freshMetrics now, frameCount := 0, lastTime := now }

/-- The object literals returned by `getPerformanceGrade`. -/
structure Grade where
  grade : String
  color : String
  description : String
deriving Repr, DecidableEq

def gradeA : Grade := { grade := "A", color := "#10b981", description := "Excellent" }

def gradeB : Grade := { grade := "B", color := "#f59e0b", description := "Good" }

def gradeC : Grade := { grade := "C", color := "#f97316", description := "Fair" }

def gradeD : Grade := { grade := "D", color := "#ef4444", description := "Poor" }

/-- `getPerformanceGrade(avgFPS, avgFrameTime)`: the four-way threshold
cascade, evaluated in order. -/
def getPerformanceGrade (avgFPS avgFrameTime : ℚ) : Grade :=
  if 55 ≤ avgFPS ∧ avgFrameTime ≤ 16 then gradeA
  else if 45 ≤ avgFPS ∧ avgFrameTime ≤ 22 then gradeB
  else if 30 ≤ avgFPS ∧ avgFrameTime ≤ 33 then gradeC
  else gradeD

/-- The record returned by `getPerformanceSummary`. -/
structure Summary where
  averageFPS : Int
  averageFrameTime : Int
  currentMemory : Option MemoryInfo
  animationCount : Int
  totalTime : Int
  performance : Grade
deriving Repr, DecidableEq

/-- `getPerformanceSummary`, read at clock reading `now`: guarded
arithmetic means over the windows (0 when a window is empty), the latest
memory sample (or `null`), and the grade of the two rounded averages. -/
def getPerformanceSummary (m : PerformanceMonitor) (now : ℚ) : Summary :=
  let avgFPS : Int :=
    if 0 < m.metrics.fps.length then
      round ((m.metrics.fps.sum : ℚ) / (m.metrics.fps.length : ℚ))
    else 0
  let avgFrameTime : Int :=
    if 0 < m.metrics.frameTime.length then
      round (m.metrics.frameTime.sum / (m.metrics.frameTime.length : ℚ))
    else 0
  let currentMemory := m.metrics.memory.getLast?
  let totalTime := now - m.metrics.startTime
  { averageFPS := avgFPS
    averageFrameTime := avgFrameTime
    currentMemory := currentMemory
    animationCount := m.metrics.animationCount
    totalTime := round (totalTime / 1000)
    performance := getPerformanceGrade (avgFPS : ℚ) (avgFrameTime : ℚ) }

/-- One delivered sampler callback: an FPS interval tick, a memory
interval tick (with the optional heap capability's reading), one frame of
the `requestAnimationFrame` chain, or a caller's counter adjustment. -/
inductive MEvent where
  | fpsTick (now : ℚ)
  | memTick (mem : Option RawMemory) (ts : Int)
  | frame (frameTime : ℚ)
  | inc
  | dec
deriving Repr, DecidableEq

/-- Apply one delivered callback to the monitor state. -/
def applyEvent (m : PerformanceMonitor) : MEvent → PerformanceMonitor
  | .fpsTick now => updateFPS m now
  | .memTick mem ts => updateMemory m mem ts
  | .frame ft => recordFrameTime m ft
  | .inc => incrementAnimationCount m
  | .dec => decrementAnimationCount m

/-- Apply a sequence of delivered callbacks in order. -/
def applyEvents (m : PerformanceMonitor) (es : List MEvent) : PerformanceMonitor :=
  es.foldl applyEvent m

/-! ## AnimationPerformanceTester

The scenario runner is modelled against an abstract page state holding the
element counts its DOM queries branch on, plus counters for the offscreen
fallback nodes it synthesizes (the only nodes the cleanup selectors
`div[style*="-1000px"]` / `svg[style*="-1000px"]` match). -/

/-- The aspects of the live page the scenario runner reads. -/
structure Page where
  /-- `Math.max` over the five document height properties. -/
  pageHeight : Nat
  /-- `document.querySelectorAll('.particle, .orbital-element, .shape, .wave').length`. -/
  decorativeCount : Nat
  /-- `window.location.pathname.includes('gsap-version') || … ('vanilla-version')`. -/
  isDemoPage : Bool
  /-- Total length of the concatenated matches of the seven stagger selectors. -/
  staggerMatched : Nat
  /-- Total length of the concatenated matches of the seven SVG selectors. -/
  svgMatched : Nat
deriving Repr, DecidableEq

/-- The document, as the scenario runner observes and mutates it: the
static page plus the synthesized offscreen fallback nodes currently
attached to `document.body`. -/
structure Dom where
  page : Page
  /-- Offscreen stagger test containers present (match `div[style*="-1000px"]`). -/
  synthStaggerContainers : Nat
  /-- Offscreen test SVGs present (match `svg[style*="-1000px"]`). -/
  synthSvgs : Nat
deriving Repr, DecidableEq

/-- `Math.ceil(a / b)` on the natural page height. -/
def ceilDiv (a b : Nat) : Nat := (a + b - 1) / b

/-- The `details` payload pushed with each test result.  (The SVG
scenario's `elementTypes` tag-name list is presentational and not
modelled.) -/
inductive TestDetails where
  | scroll (pageHeight scrollSteps stepDelay totalDistance : Nat)
      (pageType : String) (isDemoPage : Bool)
  | stagger (elementCount staggerDelay : Nat) (pageType : String) (isDemoPage : Bool)
  | svg (elementCount animationDelay : Nat) (pageType : String) (isDemoPage : Bool)
deriving Repr, DecidableEq

/-- One entry of `this.testResults`. -/
structure TestResult where
  test : String
  duration : Int
  timestamp : Int
  details : TestDetails
deriving Repr, DecidableEq

/-- What one scenario call produces: its return value (the unrounded
duration), the document and results list it leaves behind, and the clock
reading at which it returns. -/
structure ScenarioOut where
  duration : ℚ
  dom : Dom
  results : List TestResult
  endTime : ℚ
deriving Repr, DecidableEq

/-- `document.querySelectorAll('.particle, .orbital-element, .shape, .wave').length > 10`. -/
def hasHeavyAnimations (p : Page) : Bool := 10 < p.decorativeCount

/-- The shared `hasHeavyAnimations || isDemoPage` pacing condition. -/
def heavyOrDemo (p : Page) : Bool := hasHeavyAnimations p || p.isDemoPage

/-- The `pageType` string recorded in every scenario's details. -/
def pageTypeString (p : Page) : String :=
  if hasHeavyAnimations p then "Heavy" else "Light"

/-- `testScrollAnimations`, entered at clock reading `t0`: choose step
count and inter-step delay from the heavy/demo classification, perform
`scrollSteps + 1` smooth-scroll steps each followed by a `stepDelay` wait,
scroll back to top and wait 1000 ms, then record and return the wall-clock
duration.  (The `window.scrollTo` calls themselves only move the viewport
and are not modelled.) -/
def testScrollAnimations (d : Dom) (rs : List TestResult) (t0 : ℚ) : ScenarioOut :=
  let p := d.page
  let scrollSteps := if heavyOrDemo p then ceilDiv p.pageHeight 200 else ceilDiv p.pageHeight 100
  let stepDelay : Nat := if heavyOrDemo p then 300 else 150
  let endTime := t0 + ((scrollSteps : ℚ) + 1) * (stepDelay : ℚ) + 1000
  let duration := endTime - t0
  { duration := duration
    dom := d
    results := rs ++
      [{ test := "Scroll Animations"
         duration := round duration
         timestamp := round endTime
         details := .scroll p.pageHeight scrollSteps stepDelay (p.pageHeight * 2)
           (pageTypeString p) p.isDemoPage }]
    endTime := endTime }

/-- `testStaggerAnimations`, entered at clock reading `t0`: gather the
stagger-selector matches; when none exist synthesize an offscreen
container of 20 test elements; schedule each element's reveal at
`index * staggerDelay`; wait `count * staggerDelay + 1000` ms; remove the
offscreen container the cleanup query finds, if any; then record and
return the wall-clock duration. -/
def testStaggerAnimations (d : Dom) (rs : List TestResult) (t0 : ℚ) : ScenarioOut :=
  let p := d.page
  let synthesized := p.staggerMatched == 0
  let elementCount := if synthesized then 20 else p.staggerMatched
  let d1 :=
    if synthesized then
      { d with synthStaggerContainers := d.synthStaggerContainers + 1 }
    else d
  let staggerDelay : Nat := if heavyOrDemo p then 120 else 80
  let endTime := t0 + (elementCount : ℚ) * (staggerDelay : ℚ) + 1000
  let d2 :=
    if 0 < d1.synthStaggerContainers then
      { d1 with synthStaggerContainers := d1.synthStaggerContainers - 1 }
    else d1
  let duration := endTime - t0
  { duration := duration
    dom := d2
    results := rs ++
      [{ test := "Stagger Animations"
         duration := round duration
         timestamp := round endTime
         details := .stagger elementCount staggerDelay (pageTypeString p) p.isDemoPage }]
    endTime := endTime }

/-- `testSVGAnimations`, entered at clock reading `t0`: gather the
SVG-selector matches; when none exist synthesize one offscreen test SVG
holding a single dash-offset path; schedule each element's transform at
`index * animationDelay`; wait `count * animationDelay + 2500` ms; remove
the offscreen SVG the cleanup query finds, if any; then record and return
the wall-clock duration.  (The per-tag style mutations are presentational
and not modelled.) -/
def testSVGAnimations (d : Dom) (rs : List TestResult) (t0 : ℚ) : ScenarioOut :=
  let p := d.page
  let synthesized := p.svgMatched == 0
  let elementCount := if synthesized then 1 else p.svgMatched
  let d1 := if synthesized then { d with synthSvgs := d.synthSvgs + 1 } else d
  let animationDelay : Nat := if heavyOrDemo p then 300 else 200
  let endTime := t0 + (elementCount : ℚ) * (animationDelay : ℚ) + 2500
  let d2 := if 0 < d1.synthSvgs then { d1 with synthSvgs := d1.synthSvgs - 1 } else d1
  let duration := endTime - t0
  { duration := duration
    dom := d2
    results := rs ++
      [{ test := "SVG Path Animations"
         duration := round duration
         timestamp := round endTime
         details := .svg elementCount animationDelay (pageTypeString p) p.isDemoPage }]
    endTime := endTime }

/-- The record returned by `runAllTests`. -/
structure RunResults where
  scrollAnimations : ℚ
  staggerAnimations : ℚ
  svgAnimations : ℚ
  summary : Summary
deriving Repr, DecidableEq

/-- What `runAllTests` leaves behind in addition to its return value. -/
structure RunOut where
  results : RunResults
  monitor : PerformanceMonitor
  dom : Dom
  testResults : List TestResult
  endTime : ℚ
deriving Repr, DecidableEq

/-- `runAllTests`, entered at clock reading `t0`: start the monitor, await
the three scenarios one after the other (the object literal evaluates its
fields in order, each `await`ed to completion), read the monitor summary,
stop the monitor, and return the combined report.  The sampler callbacks
that fire while each scenario runs are delivered as `es1`, `es2`, `es3`;
scenario code never touches the monitor, so applying each batch at its
scenario's end is faithful. -/
def runAllTests (m : PerformanceMonitor) (d : Dom) (rs : List TestResult)
    (es1 es2 es3 : List MEvent) (t0 : ℚ) : RunOut :=
  let m1 := startMonitoring m t0
  let o1 := testScrollAnimations d rs t0
  let m2 := applyEvents m1 es1
  let o2 := testStaggerAnimations o1.dom o1.results o1.endTime
  let m3 := applyEvents m2 es2
  let o3 := testSVGAnimations o2.dom o2.results o2.endTime
  let m4 := applyEvents m3 es3
  let results : RunResults :=
    { scrollAnimations := o1.duration
      staggerAnimations := o2.duration
      svgAnimations := o3.duration
      summary := getPerformanceSummary m4 o3.endTime }
  let m5 := stopMonitoring m4
  { results := results
    monitor := m5
    dom := o3.dom
    testResults := o3.results
    endTime := o3.endTime }

/-! ## Rolling-window lemmas -/

/-- Pushing into a window at or below capacity keeps it at or below
capacity. -/
lemma pushWindow_length_le (cap : Nat) (w : List α) (x : α) (h : w.length ≤ cap) :
    (pushWindow cap w x).length ≤ cap := by
  simp only [pushWindow]
  split
  next hcond =>
    simp only [List.length_tail, List.length_append, List.length_singleton] at hcond ⊢
    omega
  next hcond =>
    simp only [List.length_append, List.length_singleton] at hcond ⊢
    omega

/-- Folding pushes over a window at or below capacity leaves exactly the
suffix of the combined stream that fits the capacity. -/
lemma pushWindow_foldl (cap : Nat) (w : List α) (xs : List α) (h : w.length ≤ cap) :
    List.foldl (pushWindow cap) w xs =
      (w ++ xs).drop (w.length + xs.length - cap) := by
  induction xs generalizing w with
  | nil => simp [Nat.sub_eq_zero_of_le h]
  | cons x xs ih =>
      rw [List.foldl_cons]
      by_cases hev : cap ≤ w.length
      · have hcap : w.length = cap := le_antisymm h hev
        have hc : cap < (w ++ [x]).length := by
          simp only [List.length_append, List.length_singleton]; omega
        have hpush : pushWindow cap w x = (w ++ [x]).tail := by
          simp only [pushWindow]
          rw [if_pos hc]
        have hlen : ((w ++ [x]).tail).length ≤ cap := by
          simp only [List.length_tail, List.length_append, List.length_singleton]
          omega
        rw [hpush, ih _ hlen]
        rw [show ((w ++ [x]).tail).length + xs.length - cap = xs.length from by
          simp only [List.length_tail, List.length_append, List.length_singleton]; omega]
        rw [show w.length + (x :: xs).length - cap = xs.length + 1 from by
          simp only [List.length_cons]; omega]
        rw [← List.drop_one,
          ← List.drop_append_of_le_length
            (by simp only [List.length_append, List.length_singleton]; omega :
              1 ≤ (w ++ [x]).length),
          List.drop_drop]
        simp [List.append_assoc, Nat.add_comm]
      · have hc : ¬ cap < (w ++ [x]).length := by
          simp only [List.length_append, List.length_singleton]; omega
        have hpush : pushWindow cap w x = w ++ [x] := by
          simp only [pushWindow]
          rw [if_neg hc]
        have hlen : (w ++ [x]).length ≤ cap := by
          simp only [List.length_append, List.length_singleton]; omega
        rw [hpush, ih _ hlen]
        rw [show (w ++ [x]).length + xs.length - cap
              = w.length + (x :: xs).length - cap from by
          simp only [List.length_append, List.length_singleton, List.length_cons,
            List.length_nil]
          omega]
        simp [List.append_assoc]

/-- Folding pushes over an initially empty window leaves the suffix of
the stream that fits the capacity. -/
lemma pushWindow_foldl_nil (cap : Nat) (xs : List α) :
    List.foldl (pushWindow cap) ([] : List α) xs = xs.drop (xs.length - cap) := by
  simpa using pushWindow_foldl cap [] xs (by simp)

/-- The FPS values `updateFPS` records along an event sequence, in
arrival order. -/
def fpsRecorded (m : PerformanceMonitor) : List MEvent → List Int
  | [] => []
  | e :: es =>
      (match e with
       | .fpsTick now => [round (((m.frameCount : ℚ) * 1000) / (now - m.lastTime))]
       | _ => []) ++ fpsRecorded (applyEvent m e) es

/-- The memory samples `updateMemory` records along an event sequence
(only ticks on which the heap capability is present record anything). -/
def memRecorded : List MEvent → List MemoryInfo
  | [] => []
  | .memTick (some r) ts :: es =>
      { used := round (r.usedJSHeapSize / 1024 / 1024)
        total := round (r.totalJSHeapSize / 1024 / 1024)
        limit := round (r.jsHeapSizeLimit / 1024 / 1024)
        timestamp := ts } :: memRecorded es
  | _ :: es => memRecorded es

/-- The frame durations the frame-timing chain records along an event
sequence, in arrival order. -/
def frameRecorded : List MEvent → List ℚ
  | [] => []
  | .frame ft :: es => ft :: frameRecorded es
  | _ :: es => frameRecorded es

/-- The FPS window evolves by folding the recorded FPS values through the
capacity-60 push. -/
lemma applyEvents_fps (m : PerformanceMonitor) (es : List MEvent) :
    (applyEvents m es).metrics.fps =
      List.foldl (pushWindow 60) m.metrics.fps (fpsRecorded m es) := by
  induction es generalizing m with
  | nil => rfl
  | cons e es ih =>
      show (applyEvents (applyEvent m e) es).metrics.fps = _
      rw [ih]
      cases e with
      | fpsTick now => rfl
      | memTick mem ts => cases mem <;> rfl
      | frame ft => rfl
      | inc => rfl
      | dec =>
          simp only [fpsRecorded, List.nil_append]
          congr 1
          simp only [applyEvent, decrementAnimationCount]
          split <;> rfl

/-- The memory window evolves by folding the recorded memory samples
through the capacity-30 push. -/
lemma applyEvents_memory (m : PerformanceMonitor) (es : List MEvent) :
    (applyEvents m es).metrics.memory =
      List.foldl (pushWindow 30) m.metrics.memory (memRecorded es) := by
  induction es generalizing m with
  | nil => rfl
  | cons e es ih =>
      show (applyEvents (applyEvent m e) es).metrics.memory = _
      rw [ih]
      cases e with
      | fpsTick now => rfl
      | memTick mem ts => cases mem <;> rfl
      | frame ft => rfl
      | inc => rfl
      | dec =>
          simp only [memRecorded]
          congr 1
          simp only [applyEvent, decrementAnimationCount]
          split <;> rfl

/-- The frame-time window evolves by folding the recorded frame durations
through the capacity-120 push. -/
lemma applyEvents_frameTime (m : PerformanceMonitor) (es : List MEvent) :
    (applyEvents m es).metrics.frameTime =
      List.foldl (pushWindow 120) m.metrics.frameTime (frameRecorded es) := by
  induction es generalizing m with
  | nil => rfl
  | cons e es ih =>
      show (applyEvents (applyEvent m e) es).metrics.frameTime = _
      rw [ih]
      cases e with
      | fpsTick now => rfl
      | memTick mem ts => cases mem <;> rfl
      | frame ft => rfl
      | inc => rfl
      | dec =>
          simp only [frameRecorded]
          congr 1
          simp only [applyEvent, decrementAnimationCount]
          split <;> rfl

/-- `incrementAnimationCount` adds one to the counter. -/
lemma inc_count (m : PerformanceMonitor) :
    (incrementAnimationCount m).metrics.animationCount =
      m.metrics.animationCount + 1 := rfl

/-- The counter after `decrementAnimationCount`, as a conditional. -/
lemma dec_count (m : PerformanceMonitor) :
    (decrementAnimationCount m).metrics.animationCount =
      if 0 < m.metrics.animationCount then m.metrics.animationCount - 1
      else m.metrics.animationCount := by
  unfold decrementAnimationCount
  split <;> rfl

/-- The animation counter never goes negative: it is preserved or
incremented by every event except a clamped decrement. -/
lemma applyEvents_count_nonneg (es : List MEvent) (m : PerformanceMonitor)
    (h : 0 ≤ m.metrics.animationCount) :
    0 ≤ (applyEvents m es).metrics.animationCount := by
  induction es generalizing m with
  | nil => exact h
  | cons e es ih =>
      show 0 ≤ (applyEvents (applyEvent m e) es).metrics.animationCount
      apply ih
      cases e with
      | fpsTick now => exact h
      | memTick mem ts => cases mem <;> exact h
      | frame ft => exact h
      | inc =>
          rw [show applyEvent m .inc = incrementAnimationCount m from rfl, inc_count]
          omega
      | dec =>
          rw [show applyEvent m .dec = decrementAnimationCount m from rfl, dec_count]
          split <;> omega

/-- `N` increments add `N` to the counter. -/
lemma applyEvents_incs (N : Nat) (m : PerformanceMonitor) :
    (applyEvents m (List.replicate N .inc)).metrics.animationCount =
      m.metrics.animationCount + N := by
  induction N generalizing m with
  | zero =>
      show m.metrics.animationCount = _
      push_cast
      ring
  | succ n ih =>
      rw [List.replicate_succ]
      show (applyEvents (applyEvent m .inc) (List.replicate n .inc)).metrics.animationCount = _
      rw [ih, show applyEvent m .inc = incrementAnimationCount m from rfl, inc_count]
      push_cast
      ring

/-- `M` clamped decrements floor the counter at zero. -/
lemma applyEvents_decs (M : Nat) (m : PerformanceMonitor)
    (h : 0 ≤ m.metrics.animationCount) :
    (applyEvents m (List.replicate M .dec)).metrics.animationCount =
      max (m.metrics.animationCount - M) 0 := by
  induction M generalizing m with
  | zero =>
      show m.metrics.animationCount = _
      rw [max_def]
      push_cast
      split <;> omega
  | succ n ih =>
      rw [List.replicate_succ]
      show (applyEvents (applyEvent m .dec) (List.replicate n .dec)).metrics.animationCount = _
      rw [ih _ (by
        rw [show applyEvent m .dec = decrementAnimationCount m from rfl, dec_count]
        split <;> omega)]
      rw [show applyEvent m .dec = decrementAnimationCount m from rfl, dec_count]
      split <;> (rw [max_def, max_def]; push_cast; split <;> split <;> omega)

/-! ## Scenario-runner helper lemmas and projections -/

lemma le_add_nat_mul (a : ℚ) (n k : Nat) (c : ℚ) (hc : 0 ≤ c) :
    a ≤ a + (n : ℚ) * (k : ℚ) + c := by
  have h : (0 : ℚ) ≤ (n : ℚ) * (k : ℚ) := by positivity
  linarith

lemma le_add_nat_succ_mul (a : ℚ) (n k : Nat) (c : ℚ) (hc : 0 ≤ c) :
    a ≤ a + ((n : ℚ) + 1) * (k : ℚ) + c := by
  have h : (0 : ℚ) ≤ ((n : ℚ) + 1) * (k : ℚ) := by positivity
  linarith

lemma duration_nonneg_succ_mul (t0 : ℚ) (n k : Nat) (c : ℚ) (hc : 0 ≤ c) :
    0 ≤ t0 + ((n : ℚ) + 1) * (k : ℚ) + c - t0 := by
  have h : (0 : ℚ) ≤ ((n : ℚ) + 1) * (k : ℚ) := by positivity
  linarith

lemma duration_nonneg_mul (t0 : ℚ) (n k : Nat) (c : ℚ) (hc : 0 ≤ c) :
    0 ≤ t0 + (n : ℚ) * (k : ℚ) + c - t0 := by
  have h : (0 : ℚ) ≤ (n : ℚ) * (k : ℚ) := by positivity
  linarith

/-- The inter-step delay recorded in a scroll result's details. -/
def stepDelayOf : TestDetails → Option Nat
  | .scroll _ _ sd _ _ _ => some sd
  | _ => none

/-- The step count recorded in a scroll result's details. -/
def scrollStepsOf : TestDetails → Option Nat
  | .scroll _ ss _ _ _ _ => some ss
  | _ => none

/-- The per-element delay recorded in a stagger result's details. -/
def staggerDelayOf : TestDetails → Option Nat
  | .stagger _ sd _ _ => some sd
  | _ => none

/-- The per-element delay recorded in an SVG result's details. -/
def animationDelayOf : TestDetails → Option Nat
  | .svg _ ad _ _ => some ad
  | _ => none

/-- The page-type classification string recorded in a result's details. -/
def pageTypeOf : TestDetails → String
  | .scroll _ _ _ _ pt _ => pt
  | .stagger _ _ pt _ => pt
  | .svg _ _ pt _ => pt

/-! ## Claim theorems: the Sampler -/

/-- C1: `getPerformanceGrade` evaluates the four threshold rules in order
with first match winning (fps ≥ 55 ∧ frameTime ≤ 16 → A, else
fps ≥ 45 ∧ frameTime ≤ 22 → B, else fps ≥ 30 ∧ frameTime ≤ 33 → C, else
D); its result is always one of the four A–D grades, and grade "F" is
never returned for any input. -/
theorem grade_first_match_and_range (fps ft : ℚ) :
    (55 ≤ fps ∧ ft ≤ 16 → getPerformanceGrade fps ft = gradeA) ∧
    (¬(55 ≤ fps ∧ ft ≤ 16) → 45 ≤ fps ∧ ft ≤ 22 → getPerformanceGrade fps ft = gradeB) ∧
    (¬(55 ≤ fps ∧ ft ≤ 16) → ¬(45 ≤ fps ∧ ft ≤ 22) → 30 ≤ fps ∧ ft ≤ 33 →
      getPerformanceGrade fps ft = gradeC) ∧
    (¬(55 ≤ fps ∧ ft ≤ 16) → ¬(45 ≤ fps ∧ ft ≤ 22) → ¬(30 ≤ fps ∧ ft ≤ 33) →
      getPerformanceGrade fps ft = gradeD) ∧
    (getPerformanceGrade fps ft = gradeA ∨ getPerformanceGrade fps ft = gradeB ∨
      getPerformanceGrade fps ft = gradeC ∨ getPerformanceGrade fps ft = gradeD) ∧
    (getPerformanceGrade fps ft).grade ≠ "F" := by
  unfold getPerformanceGrade
  by_cases h1 : 55 ≤ fps ∧ ft ≤ 16
  · rw [if_pos h1]
    refine ⟨fun _ => rfl, fun h => absurd h1 h, fun h _ => absurd h1 h, fun h _ _ => absurd h1 h,
      Or.inl rfl, ?_⟩
    decide
  · rw [if_neg h1]
    by_cases h2 : 45 ≤ fps ∧ ft ≤ 22
    · rw [if_pos h2]
      refine ⟨fun h => absurd h h1, fun _ _ => rfl, fun _ h => absurd h2 h,
        fun _ h => absurd h2 h, Or.inr (Or.inl rfl), ?_⟩
      decide
    · rw [if_neg h2]
      by_cases h3 : 30 ≤ fps ∧ ft ≤ 33
      · rw [if_pos h3]
        refine ⟨fun h => absurd h h1, fun _ h => absurd h h2, fun _ _ _ => rfl,
          fun _ _ h => absurd h3 h, Or.inr (Or.inr (Or.inl rfl)), ?_⟩
        decide
      · rw [if_neg h3]
        refine ⟨fun h => absurd h h1, fun _ h => absurd h h2, fun _ _ h => absurd h h3,
          fun _ _ _ => rfl, Or.inr (Or.inr (Or.inr rfl)), ?_⟩
        decide

/-- Witness for C1 at fps = 60, frameTime = 10 (rule 1 fires) and at
fps = 0, frameTime = 100 (no rule fires, grade D, still not "F"). -/
theorem grade_first_match_and_range_witness :
    getPerformanceGrade 60 10 = gradeA ∧ (getPerformanceGrade 0 100).grade ≠ "F" :=
  ⟨(grade_first_match_and_range 60 10).1 ⟨by norm_num, by norm_num⟩,
    (grade_first_match_and_range 0 100).2.2.2.2.2⟩

/-- C2: over any sequence of delivered sampler callbacks starting from a
fresh monitor, the FPS window holds at most 60 samples, the memory window
at most 30, and the frame-time window at most 120; each window equals
exactly the suffix of the recorded-sample stream that fits its capacity
(oldest evicted first, most recent kept, arrival order preserved). -/
theorem rolling_windows_bounded_fifo (t0 : ℚ) (es : List MEvent) :
    ((applyEvents (mkMonitor t0) es).metrics.fps =
        (fpsRecorded (mkMonitor t0) es).drop
          ((fpsRecorded (mkMonitor t0) es).length - 60)) ∧
    (applyEvents (mkMonitor t0) es).metrics.fps.length ≤ 60 ∧
    ((applyEvents (mkMonitor t0) es).metrics.memory =
        (memRecorded es).drop ((memRecorded es).length - 30)) ∧
    (applyEvents (mkMonitor t0) es).metrics.memory.length ≤ 30 ∧
    ((applyEvents (mkMonitor t0) es).metrics.frameTime =
        (frameRecorded es).drop ((frameRecorded es).length - 120)) ∧
    (applyEvents (mkMonitor t0) es).metrics.frameTime.length ≤ 120 := by
  have h1 := applyEvents_fps (mkMonitor t0) es
  have h2 := applyEvents_memory (mkMonitor t0) es
  have h3 := applyEvents_frameTime (mkMonitor t0) es
  rw [show (mkMonitor t0).metrics.fps = [] from rfl, pushWindow_foldl_nil] at h1
  rw [show (mkMonitor t0).metrics.memory = [] from rfl, pushWindow_foldl_nil] at h2
  rw [show (mkMonitor t0).metrics.frameTime = [] from rfl, pushWindow_foldl_nil] at h3
  refine ⟨h1, ?_, h2, ?_, h3, ?_⟩
  · rw [h1]; simp only [List.length_drop]; omega
  · rw [h2]; simp only [List.length_drop]; omega
  · rw [h3]; simp only [List.length_drop]; omega

/-- C3: from a fresh monitor, `N` increments followed by `M` decrements
leave the animation counter at `max (N - M) 0`, and after any interleaved
event sequence the counter is never negative (decrement at zero is a
no-op). -/
theorem animation_counter_clamped (t0 : ℚ) :
    (∀ N M : Nat,
      (applyEvents (mkMonitor t0)
          (List.replicate N .inc ++ List.replicate M .dec)).metrics.animationCount =
        max ((N : Int) - (M : Int)) 0) ∧
    (∀ es : List MEvent, 0 ≤ (applyEvents (mkMonitor t0) es).metrics.animationCount) ∧
    (∀ m : PerformanceMonitor, m.metrics.animationCount = 0 →
      decrementAnimationCount m = m) := by
  refine ⟨?_, ?_, ?_⟩
  · intro N M
    rw [show applyEvents (mkMonitor t0) (List.replicate N .inc ++ List.replicate M .dec)
          = applyEvents (applyEvents (mkMonitor t0) (List.replicate N .inc))
              (List.replicate M .dec) from List.foldl_append ..]
    rw [applyEvents_decs, applyEvents_incs]
    · rw [show (mkMonitor t0).metrics.animationCount = 0 from rfl]
      ring_nf
    · rw [applyEvents_incs]
      rw [show (mkMonitor t0).metrics.animationCount = 0 from rfl]
      positivity
  · intro es
    exact applyEvents_count_nonneg es (mkMonitor t0) (by norm_num [mkMonitor, freshMetrics])
  · intro m hm
    unfold decrementAnimationCount
    rw [if_neg]
    omega

/-- Witness for C3: two increments then three decrements land on
`max (2 - 3) 0 = 0`; an interleaving stays non-negative; decrement on a
fresh (zero-count) monitor is a no-op. -/
theorem animation_counter_clamped_witness :
    (applyEvents (mkMonitor 0)
        (List.replicate 2 .inc ++ List.replicate 3 .dec)).metrics.animationCount =
      max ((2 : Int) - (3 : Int)) 0 ∧
    0 ≤ (applyEvents (mkMonitor 0)
        [MEvent.inc, MEvent.dec, MEvent.dec, MEvent.inc]).metrics.animationCount ∧
    decrementAnimationCount (mkMonitor 0) = mkMonitor 0 :=
  ⟨(animation_counter_clamped 0).1 2 3,
    (animation_counter_clamped 0).2.1 [MEvent.inc, MEvent.dec, MEvent.dec, MEvent.inc],
    (animation_counter_clamped 0).2.2 (mkMonitor 0) rfl⟩

/-- C4: on a fresh monitor with no samples recorded, the summary has zero
average FPS, zero average frame time, no memory sample, and grade D; the
empty-window branches are guarded, so the (total) summary function never
attempts a reduction over an empty list. -/
theorem summary_empty_monitor (t t' : ℚ) :
    (getPerformanceSummary (mkMonitor t) t').averageFPS = 0 ∧
    (getPerformanceSummary (mkMonitor t) t').averageFrameTime = 0 ∧
    (getPerformanceSummary (mkMonitor t) t').currentMemory = none ∧
    (getPerformanceSummary (mkMonitor t) t').performance = gradeD := by
  refine ⟨rfl, rfl, rfl, ?_⟩
  show getPerformanceGrade ((0 : Int) : ℚ) ((0 : Int) : ℚ) = gradeD
  decide

/-- C8: when the heap-introspection capability is absent, the memory tick
is a silent no-op on the whole monitor state, and with an empty memory
window the summary's memory sample is `null` rather than an error. -/
theorem memory_capability_absent_noop (m : PerformanceMonitor) (ts : Int) (t : ℚ) :
    updateMemory m none ts = m ∧
    (m.metrics.memory = [] → (getPerformanceSummary m t).currentMemory = none) := by
  refine ⟨rfl, fun h => ?_⟩
  simp [getPerformanceSummary, h]

/-- Witness for C8 on a fresh monitor (its memory window is empty). -/
theorem memory_capability_absent_noop_witness :
    updateMemory (mkMonitor 0) none 0 = mkMonitor 0 ∧
    (getPerformanceSummary (mkMonitor 0) 0).currentMemory = none :=
  ⟨(memory_capability_absent_noop (mkMonitor 0) 0 0).1,
    (memory_capability_absent_noop (mkMonitor 0) 0 0).2 rfl⟩

/-- C9: for any monitor state, `reset` at time `t` followed immediately by
`getPerformanceSummary` yields exactly the summary of a freshly
constructed monitor read at the same instant: zero averages, no memory
sample, zero animation count, zero elapsed time, grade D. -/
theorem reset_summary_eq_fresh (m : PerformanceMonitor) (t : ℚ) :
    getPerformanceSummary (reset m t) t = getPerformanceSummary (mkMonitor t) t ∧
    (getPerformanceSummary (reset m t) t).averageFPS = 0 ∧
    (getPerformanceSummary (reset m t) t).averageFrameTime = 0 ∧
    (getPerformanceSummary (reset m t) t).currentMemory = none ∧
    (getPerformanceSummary (reset m t) t).animationCount = 0 ∧
    (getPerformanceSummary (reset m t) t).totalTime = 0 ∧
    (getPerformanceSummary (reset m t) t).performance = gradeD := by
  refine ⟨rfl, rfl, rfl, rfl, rfl, ?_, ?_⟩
  · show round ((t - t) / 1000) = 0
    simp
  · show getPerformanceGrade ((0 : Int) : ℚ) ((0 : Int) : ℚ) = gradeD
    decide

/-- C10: the summary rounds both averages to integers before the grade
thresholds are applied — the exposed `averageFPS`/`averageFrameTime` are
the rounded means (`Math.round`, half towards +∞), and the grade is
computed from exactly those rounded values; concretely, a true average
frame time of 16.4 ms is exposed as 16 and passes the ≤ 16 grade-A
threshold. -/
theorem summary_rounds_before_grading (m : PerformanceMonitor) (t : ℚ) :
    ((getPerformanceSummary m t).averageFPS =
      if 0 < m.metrics.fps.length then
        round ((m.metrics.fps.sum : ℚ) / (m.metrics.fps.length : ℚ)) else 0) ∧
    ((getPerformanceSummary m t).averageFrameTime =
      if 0 < m.metrics.frameTime.length then
        round (m.metrics.frameTime.sum / (m.metrics.frameTime.length : ℚ)) else 0) ∧
    ((getPerformanceSummary m t).performance =
      getPerformanceGrade ((getPerformanceSummary m t).averageFPS : ℚ)
        ((getPerformanceSummary m t).averageFrameTime : ℚ)) ∧
    ((getPerformanceSummary
        { mkMonitor 0 with
          metrics := { freshMetrics 0 with fps := [60], frameTime := [82/5] } }
        0).averageFrameTime = 16) ∧
    ((getPerformanceSummary
        { mkMonitor 0 with
          metrics := { freshMetrics 0 with fps := [60], frameTime := [82/5] } }
        0).performance = gradeA) := by
  refine ⟨rfl, rfl, rfl, ?_, ?_⟩
  · norm_num [getPerformanceSummary, mkMonitor, freshMetrics, round_eq]
  · norm_num [getPerformanceSummary, mkMonitor, freshMetrics, round_eq,
      getPerformanceGrade]

/-! ## Claim theorems: the Scenario Runner -/

/-- C5: `runAllTests` starts the monitor, runs scroll, stagger and SVG
strictly one after the other — each scenario starts at the previous one's
end time, so the three wall-clock intervals are ordered with no overlap —
stops the monitor, and returns the three scenarios' wall-clock durations
(each the span of its own interval, in milliseconds) together with the
monitor's summary. -/
theorem runAllTests_sequential (m : PerformanceMonitor) (d : Dom)
    (rs : List TestResult) (es1 es2 es3 : List MEvent) (t0 : ℚ) :
    let o1 := testScrollAnimations d rs t0
    let o2 := testStaggerAnimations o1.dom o1.results o1.endTime
    let o3 := testSVGAnimations o2.dom o2.results o2.endTime
    let out := runAllTests m d rs es1 es2 es3 t0
    out.results.scrollAnimations = o1.duration ∧
    out.results.staggerAnimations = o2.duration ∧
    out.results.svgAnimations = o3.duration ∧
    o1.duration = o1.endTime - t0 ∧
    o2.duration = o2.endTime - o1.endTime ∧
    o3.duration = o3.endTime - o2.endTime ∧
    t0 ≤ o1.endTime ∧ o1.endTime ≤ o2.endTime ∧ o2.endTime ≤ o3.endTime ∧
    out.results.summary =
      getPerformanceSummary
        (applyEvents (applyEvents (applyEvents (startMonitoring m t0) es1) es2) es3)
        o3.endTime ∧
    out.monitor.isMonitoring = false ∧
    out.endTime = o3.endTime ∧
    out.testResults = o3.results ∧
    out.dom = o3.dom := by
  intro o1 o2 o3 out
  refine ⟨rfl, rfl, rfl, rfl, rfl, rfl, ?_, ?_, ?_, rfl, ?_, rfl, rfl, rfl⟩
  · show t0 ≤ (testScrollAnimations d rs t0).endTime
    simp only [testScrollAnimations]
    exact le_add_nat_succ_mul t0 _ _ 1000 (by norm_num)
  · show o1.endTime ≤ (testStaggerAnimations o1.dom o1.results o1.endTime).endTime
    simp only [testStaggerAnimations]
    exact le_add_nat_mul _ _ _ 1000 (by norm_num)
  · show o2.endTime ≤ (testSVGAnimations o2.dom o2.results o2.endTime).endTime
    simp only [testSVGAnimations]
    exact le_add_nat_mul _ _ _ 2500 (by norm_num)
  · show (stopMonitoring _).isMonitoring = false
    unfold stopMonitoring
    split
    next h => simpa using h
    next h => rfl

/-- C6: every scenario classifies the page as heavy exactly when the
combined `.particle, .orbital-element, .shape, .wave` count exceeds 10;
on a heavy-or-demo page the recorded pacing constants are the heavy tier
(scroll: `ceil(height/200)` steps at 300 ms; stagger: 120 ms; SVG:
300 ms), otherwise the light tier (`ceil(height/100)` steps at 150 ms;
80 ms; 200 ms). -/
theorem scenario_pacing_tiers (d : Dom) (rs : List TestResult) (t0 : ℚ) :
    (hasHeavyAnimations d.page = true ↔ 10 < d.page.decorativeCount) ∧
    ((testScrollAnimations d rs t0).results.getLast?.map
        (fun r => stepDelayOf r.details)
      = some (some (if 10 < d.page.decorativeCount ∨ d.page.isDemoPage = true
          then 300 else 150))) ∧
    ((testScrollAnimations d rs t0).results.getLast?.map
        (fun r => scrollStepsOf r.details)
      = some (some (if 10 < d.page.decorativeCount ∨ d.page.isDemoPage = true
          then ceilDiv d.page.pageHeight 200 else ceilDiv d.page.pageHeight 100))) ∧
    ((testStaggerAnimations d rs t0).results.getLast?.map
        (fun r => staggerDelayOf r.details)
      = some (some (if 10 < d.page.decorativeCount ∨ d.page.isDemoPage = true
          then 120 else 80))) ∧
    ((testSVGAnimations d rs t0).results.getLast?.map
        (fun r => animationDelayOf r.details)
      = some (some (if 10 < d.page.decorativeCount ∨ d.page.isDemoPage = true
          then 300 else 200))) ∧
    ((testScrollAnimations d rs t0).results.getLast?.map
        (fun r => pageTypeOf r.details)
      = some (if 10 < d.page.decorativeCount then "Heavy" else "Light")) ∧
    ((testStaggerAnimations d rs t0).results.getLast?.map
        (fun r => pageTypeOf r.details)
      = some (if 10 < d.page.decorativeCount then "Heavy" else "Light")) ∧
    ((testSVGAnimations d rs t0).results.getLast?.map
        (fun r => pageTypeOf r.details)
      = some (if 10 < d.page.decorativeCount then "Heavy" else "Light")) := by
  have hheavy : (hasHeavyAnimations d.page = true) ↔ 10 < d.page.decorativeCount := by
    simp [hasHeavyAnimations]
  have hcond : (heavyOrDemo d.page = true) ↔
      (10 < d.page.decorativeCount ∨ d.page.isDemoPage = true) := by
    simp [heavyOrDemo, hasHeavyAnimations]
  have hsplit : heavyOrDemo d.page = true ∨ heavyOrDemo d.page = false := by
    cases heavyOrDemo d.page <;> simp
  refine ⟨hheavy, ?_, ?_, ?_, ?_, ?_, ?_, ?_⟩
  · rcases hsplit with hb | hb
    · simp [testScrollAnimations, List.getLast?_concat, stepDelayOf, hb, hcond.mp hb]
    · simp [testScrollAnimations, List.getLast?_concat, stepDelayOf, hb,
        hcond.not.mp (by simp [hb])]
  · rcases hsplit with hb | hb
    · simp [testScrollAnimations, List.getLast?_concat, scrollStepsOf, hb, hcond.mp hb]
    · simp [testScrollAnimations, List.getLast?_concat, scrollStepsOf, hb,
        hcond.not.mp (by simp [hb])]
  · rcases hsplit with hb | hb
    · simp [testStaggerAnimations, List.getLast?_concat, staggerDelayOf, hb, hcond.mp hb]
    · simp [testStaggerAnimations, List.getLast?_concat, staggerDelayOf, hb,
        hcond.not.mp (by simp [hb])]
  · rcases hsplit with hb | hb
    · simp [testSVGAnimations, List.getLast?_concat, animationDelayOf, hb, hcond.mp hb]
    · simp [testSVGAnimations, List.getLast?_concat, animationDelayOf, hb,
        hcond.not.mp (by simp [hb])]
  · by_cases hh : 10 < d.page.decorativeCount
    · simp [testScrollAnimations, List.getLast?_concat, pageTypeOf, pageTypeString,
        hasHeavyAnimations, hh]
    · simp [testScrollAnimations, List.getLast?_concat, pageTypeOf, pageTypeString,
        hasHeavyAnimations, hh]
  · by_cases hh : 10 < d.page.decorativeCount
    · simp [testStaggerAnimations, List.getLast?_concat, pageTypeOf, pageTypeString,
        hasHeavyAnimations, hh]
    · simp [testStaggerAnimations, List.getLast?_concat, pageTypeOf, pageTypeString,
        hasHeavyAnimations, hh]
  · by_cases hh : 10 < d.page.decorativeCount
    · simp [testSVGAnimations, List.getLast?_concat, pageTypeOf, pageTypeString,
        hasHeavyAnimations, hh]
    · simp [testSVGAnimations, List.getLast?_concat, pageTypeOf, pageTypeString,
        hasHeavyAnimations, hh]

/-- C7: on a page where no scenario's selectors match anything and no
offscreen fallback nodes pre-exist, `runAllTests` still completes: it
returns three non-negative durations plus the monitor's summary, and the
document it leaves behind equals the initial one — every synthesized
fallback node (the 20-element stagger container and the one-path test
SVG) has been removed before it returns. -/
theorem runAllTests_empty_page (m : PerformanceMonitor) (rs : List TestResult)
    (es1 es2 es3 : List MEvent) (t0 : ℚ) (d : Dom)
    (hstag : d.page.staggerMatched = 0) (hsvg : d.page.svgMatched = 0)
    (hdiv : d.synthStaggerContainers = 0) (hsvgs : d.synthSvgs = 0) :
    (runAllTests m d rs es1 es2 es3 t0).dom = d ∧
    0 ≤ (runAllTests m d rs es1 es2 es3 t0).results.scrollAnimations ∧
    0 ≤ (runAllTests m d rs es1 es2 es3 t0).results.staggerAnimations ∧
    0 ≤ (runAllTests m d rs es1 es2 es3 t0).results.svgAnimations ∧
    (runAllTests m d rs es1 es2 es3 t0).results.summary =
      getPerformanceSummary
        (applyEvents (applyEvents (applyEvents (startMonitoring m t0) es1) es2) es3)
        (runAllTests m d rs es1 es2 es3 t0).endTime := by
  obtain ⟨⟨ph, dc, demo, sm, sv⟩, sc, ss⟩ := d
  simp only [] at hstag hsvg hdiv hsvgs
  subst hstag
  subst hsvg
  subst hdiv
  subst hsvgs
  refine ⟨rfl, ?_, ?_, ?_, rfl⟩
  · simp only [runAllTests, testScrollAnimations]
    exact duration_nonneg_succ_mul t0 _ _ 1000 (by norm_num)
  · simp only [runAllTests, testStaggerAnimations, testScrollAnimations]
    exact duration_nonneg_mul _ _ _ 1000 (by norm_num)
  · simp only [runAllTests, testSVGAnimations, testStaggerAnimations,
      testScrollAnimations]
    exact duration_nonneg_mul _ _ _ 2500 (by norm_num)

/-- Witness for C7: a 500 px page with no decorative, stagger or SVG
elements and no pre-existing fallback nodes. -/
theorem runAllTests_empty_page_witness :
    (runAllTests (mkMonitor 0) ⟨⟨500, 0, false, 0, 0⟩, 0, 0⟩ [] [] [] [] 0).dom
        = ⟨⟨500, 0, false, 0, 0⟩, 0, 0⟩ ∧
    0 ≤ (runAllTests (mkMonitor 0) ⟨⟨500, 0, false, 0, 0⟩, 0, 0⟩
          [] [] [] [] 0).results.scrollAnimations ∧
    0 ≤ (runAllTests (mkMonitor 0) ⟨⟨500, 0, false, 0, 0⟩, 0, 0⟩
          [] [] [] [] 0).results.staggerAnimations ∧
    0 ≤ (runAllTests (mkMonitor 0) ⟨⟨500, 0, false, 0, 0⟩, 0, 0⟩
          [] [] [] [] 0).results.svgAnimations ∧
    (runAllTests (mkMonitor 0) ⟨⟨500, 0, false, 0, 0⟩, 0, 0⟩
          [] [] [] [] 0).results.summary =
      getPerformanceSummary
        (applyEvents (applyEvents (applyEvents (startMonitoring (mkMonitor 0) 0) []) []) [])
        (runAllTests (mkMonitor 0) ⟨⟨500, 0, false, 0, 0⟩, 0, 0⟩ [] [] [] [] 0).endTime :=
  runAllTests_empty_page (mkMonitor 0) [] [] [] [] 0
    ⟨⟨500, 0, false, 0, 0⟩, 0, 0⟩ rfl rfl rfl rfl

end PerfUI
